import Mathlib

/-!
Verification development for the QA automation harness `qancode.py`.

The definitions below are a shallow embedding of the orchestration and
comparison core of the program:

* `compareTitle` / `compareData` embed
  `CompareFacetNumbersBetweenURLS.compare_data` (facet-count comparison);
* `cvSubtract`, `isSame`, `padIfDifferentShape`, `computeImageDifference`
  embed `CompareScreenShots` (screenshot comparison);
* `cellRun` / `runTasks` embed `DataManager.run_tasks` (the retry grid);
* `runTask` embeds `DataWorker.run_task` (one worker attempt);
* `urlComparisonInit` embeds `URLComparison.__init__`.

Machine integers do not occur: all pixel values are natural numbers below
256 and all arithmetic stays far from any overflow boundary, so `Nat` is
an exact model.
-/

namespace QANCode

/-! ## Facet data model

`GetFacetNumbers.get_data` returns a dict mapping a facet title to a list
of `(category text, number text)` pairs, both strings as scraped from the
page.  We model the dict as an association list (Python dicts preserve
insertion order and have unique keys; `lookupTitle` returns the value of
the first matching key). -/

/-- One facet entry: `(category label, displayed count)`, both strings. -/
abbrev FacetPair := String × String

/-- Structured facet data: association list from facet title to its
ordered `(label, count)` list, as produced by `GetFacetNumbers.get_data`. -/
abbrev StructData := List (String × List FacetPair)

/-- `d[title]` lookup on the dict: value of the first entry with this key. -/
def lookupTitle (d : StructData) (t : String) : Option (List FacetPair) :=
  (d.find? (fun e => e.1 == t)).map (fun e => e.2)

/-- Python `set(xs) == set(ys)` for lists: mutual containment. -/
def pySetEq {α : Type} [BEq α] (xs ys : List α) : Bool :=
  xs.all (fun x => ys.contains x) && ys.all (fun y => xs.contains y)

/-- Ascending-order comparison used to model Python `sorted` on strings
(`compare` on `String` is lexicographic by code unit, as in Python). -/
def strLe (a b : String) : Bool := compare a b != Ordering.gt

/-- Ascending-order comparison on `(label, count)` pairs: lexicographic,
as Python `sorted` orders tuples of strings. -/
def pairLe (a b : FacetPair) : Bool :=
  match compare a.1 b.1 with
  | Ordering.lt => true
  | Ordering.gt => false
  | Ordering.eq => compare a.2 b.2 != Ordering.gt

/-- Insert into a `le`-sorted list, keeping ascending order. -/
def insertLe {α : Type} (le : α → α → Bool) (x : α) : List α → List α
  | [] => [x]
  | y :: ys => if le x y then x :: y :: ys else y :: insertLe le x ys

/-- Insertion sort, our executable model of Python `sorted`.  It is only
applied to duplicate-free lists (images of `set(...)` / `dedup`), where
any correct ascending sort produces exactly Python's output. -/
def sortLe {α : Type} (le : α → α → Bool) : List α → List α
  | [] => []
  | x :: xs => insertLe le x (sortLe le xs)

/-- Python `sorted(set(xs) - set(ys))` on facet pairs. -/
def sortedSetDiff (xs ys : List FacetPair) : List FacetPair :=
  sortLe pairLe ((xs.dedup).filter (fun x => !(ys.contains x)))

/-- Outcome of the per-title body of
`CompareFacetNumbersBetweenURLS.compare_data` (lines 964-995): either the
`MATCH` report, or the positional count-vs-count report produced by
zipping the two sorted difference lists, or the fallback report that
pairs the difference entries whose label occurs on both sides and lists
the remaining entries of each side separately. -/
inductive TitleOutcome
  | matched
  | positional (pairs : List (FacetPair × FacetPair))
  | fallback (common : List (FacetPair × FacetPair))
      (onlyProd onlyRc : List FacetPair)
  deriving Repr, DecidableEq, BEq

/-- Per-title comparison, embedding the loop body of `compare_data`:

    prod = set(prod_data[title]); rc = set(rc_data[title])
    if prod != rc:
        in_prod = sorted(prod - rc); in_rc = sorted(rc - prod)
        if len(in_prod) == len(in_rc) and set(labels of prod_data[title]) == set(labels of rc_data[title]):
            zip(in_prod, in_rc)                      -- positional report
        else:
            both_keys = labels(in_prod) ∩ labels(in_rc)
            zip(sorted both_prod, sorted both_rc); only_prod; only_rc
    else:
        MATCH
-/
def compareTitle (prodList rcList : List FacetPair) : TitleOutcome :=
  if pySetEq prodList rcList then
    TitleOutcome.matched
  else
    let inProd := sortedSetDiff prodList rcList
    let inRc := sortedSetDiff rcList prodList
    if inProd.length == inRc.length
        && pySetEq (prodList.map Prod.fst) (rcList.map Prod.fst) then
      TitleOutcome.positional (inProd.zip inRc)
    else
      let bothProd := sortLe pairLe
        (inProd.filter (fun x => (inRc.map Prod.fst).contains x.1))
      let bothRc := sortLe pairLe
        (inRc.filter (fun x => (inProd.map Prod.fst).contains x.1))
      let onlyProd := inProd.filter (fun x => !((inRc.map Prod.fst).contains x.1))
      let onlyRc := inRc.filter (fun x => !((inProd.map Prod.fst).contains x.1))
      TitleOutcome.fallback (bothProd.zip bothRc) onlyProd onlyRc

/-- `d[title]` indexing as `compare_data` performs it: the dicts come
from `GetFacetNumbers.get_data`, which returns a `defaultdict(list)`
(qancode.py lines 646 and 661), so a missing title yields the empty
list rather than raising `KeyError`. -/
def getTitle (d : StructData) (t : String) : List FacetPair :=
  (lookupTitle d t).getD []

/-- The title loop of `compare_data`: process each title of the sorted
key union in order, a title present on one side only contributing the
empty list for the missing side (defaultdict semantics). -/
def compareTitles (prodData rcData : StructData) :
    List String → List (String × TitleOutcome)
  | [] => []
  | t :: ts =>
    (t, compareTitle (getTitle prodData t) (getTitle rcData t)) ::
      compareTitles prodData rcData ts

/-- `CompareFacetNumbersBetweenURLS.compare_data` applied to one record
per side: iterate over `sorted(set(prod keys) ∪ set(rc keys))` and report
one `TitleOutcome` per title. -/
def compareData (prodData rcData : StructData) :
    List (String × TitleOutcome) :=
  compareTitles prodData rcData
    (sortLe strLe ((prodData.map Prod.fst ++ rcData.map Prod.fst).dedup))

/-- Entry point of the facet comparison: the method reads
`self.prod_data[0]` and `self.rc_data[0]` (an `IndexError`, modelled as
`Except.error ()`, when a side's selection is empty). -/
def compareFacetRun (prodSel rcSel : List StructData) :
    Except Unit (List (String × TitleOutcome)) :=
  match prodSel, rcSel with
  | p :: _, r :: _ => Except.ok (compareData p r)
  | _, _ => Except.error ()

/-! ## Screenshot comparison (`CompareScreenShots`)

An image is a row-major raster: rows of pixels, each pixel a list of
channel values (uint8, so naturals below 256).  `cv2.subtract` on uint8
arrays is saturating subtraction `max(a - b, 0)`, which on naturals is
exactly truncated subtraction. -/

/-- A raster image: rows × columns × channels of uint8 values. -/
abbrev Image := List (List (List Nat))

/-- Elementwise combination of two same-shape images. -/
def imgMap2 (f : Nat → Nat → Nat) (a b : Image) : Image :=
  List.zipWith (List.zipWith (List.zipWith f)) a b

/-- `cv2.subtract(a, b)` on uint8: per-element saturating subtraction. -/
def cvSubtract (a b : Image) : Image := imgMap2 (fun x y => x - y) a b

/-- `array.sum()`: total of all channel values. -/
def imgSum (a : Image) : Nat :=
  (a.map (fun row => (row.map (fun px => px.sum)).sum)).sum

/-- `np.any(a)`: some channel value is nonzero. -/
def imgAny (a : Image) : Bool :=
  a.any (fun row => row.any (fun px => px.any (fun v => v != 0)))

/-- Result of `CompareScreenShots.is_same`: the boolean verdict together
with the `diff_distance_metric` attribute it sets. -/
structure IsSameResult where
  same : Bool
  metric : Nat
  deriving Repr, DecidableEq

/-- `CompareScreenShots.is_same`:

    self.diff_distance_metric = difference.sum()
    if np.any(difference):
        if difference.sum() > 50000: return False
    return True
-/
def isSame (difference : Image) : IsSameResult :=
  ⟨if imgAny difference then
      (if imgSum difference > 50000 then false else true)
    else true,
   imgSum difference⟩

/-- Column count of an image (length of its first row). -/
def imgWidth (a : Image) : Nat := ((a.head?).map List.length).getD 0

/-- Channel count of an image (length of its first pixel). -/
def imgChannels (a : Image) : Nat :=
  (((a.head?).bind List.head?).map List.length).getD 0

/-- `n` rows of all-zero pixels of width `w` and `ch` channels, as
produced by `np.pad(..., mode='constant')`. -/
def zeroRows (n w ch : Nat) : Image :=
  List.replicate n (List.replicate w (List.replicate ch 0))

/-- Zero-pad an image at the bottom with `n` blank rows. -/
def padBottom (a : Image) (n : Nat) : Image :=
  a ++ zeroRows n (imgWidth a) (imgChannels a)

/-- `CompareScreenShots.pad_if_different_shape`: zero-pad the image with
fewer rows at the bottom so both have the row count of the taller one. -/
def padIfDifferentShape (imageOne imageTwo : Image) : Image × Image :=
  let padShape := max imageOne.length imageTwo.length
    - min imageOne.length imageTwo.length
  if imageOne.length > imageTwo.length then
    (imageOne, padBottom imageTwo padShape)
  else
    (padBottom imageOne padShape, imageTwo)

/-- The shape equalization performed at the top of
`compute_image_difference`: pad only when the row counts differ. -/
def equalized (imageOne imageTwo : Image) : Image × Image :=
  if imageOne.length != imageTwo.length then
    padIfDifferentShape imageOne imageTwo
  else (imageOne, imageTwo)

/-- `cv2.addWeighted(a, 0.2, d, 1, 0)` per element: `0.2 * a + d`,
rounded to the nearest integer and saturated at 255.  The fractional part
of `(a + 5 * d) / 5` is never one half, so rounding mode is immaterial
and `(2 * a + 10 * d + 5) / 10` computes it exactly. -/
def addWeighted02 (a d : Nat) : Nat := min 255 ((2 * a + 10 * d + 5) / 10)

/-- `np.concatenate([a, d, b], axis=1)`: rowwise concatenation. -/
def hconcat3 (a d b : Image) : Image :=
  List.zipWith (fun x y => x ++ y) (List.zipWith (fun x y => x ++ y) a d) b

/-- Result of `CompareScreenShots.compute_image_difference`: whether a
difference was found, the triptych artifact written on mismatch, and the
scalar `diff_distance_metric`. -/
structure DiffResult where
  diffFound : Bool
  artifact : Option Image
  metric : Nat
  deriving Repr, DecidableEq

/-- `CompareScreenShots.compute_image_difference` on the two images read
from `self.prod_data[0]` and `self.rc_data[0]`:

    if shapes differ in rows: pad_if_different_shape
    difference = cv2.subtract(image_one, image_two)
    if not self.is_same(difference):
        diff = cv2.addWeighted(image_one, 0.2, difference, 1, 0)
        all_viz = np.concatenate([image_one, diff, image_two], axis=1)  -- written to disk
    (file naming and directory creation are I/O bookkeeping, not modelled)
-/
def computeImageDifference (imageOne imageTwo : Image) : DiffResult :=
  let ab := equalized imageOne imageTwo
  let difference := cvSubtract ab.1 ab.2
  let r := isSame difference
  if !r.same then
    ⟨true, some (hconcat3 ab.1 (imgMap2 addWeighted02 ab.1 difference) ab.2),
      r.metric⟩
  else
    ⟨false, none, r.metric⟩

/-- Per-pixel absolute difference, `|a - b|` elementwise.  This follows
the spec's words ("compute a per-pixel absolute difference"); it is the
comparand the screenshot claims measure `cvSubtract` against, not a
function of the source. -/
def specAbsDiff (a b : Image) : Image :=
  imgMap2 (fun x y => max x y - min x y) a b

/-- Entry point of the screenshot comparison: the method reads
`self.prod_data[0]` and `self.rc_data[0]` (an `IndexError`, modelled as
`Except.error ()`, when a side's selection is empty). -/
def imageRun (prodSel rcSel : List Image) : Except Unit DiffResult :=
  match prodSel, rcSel with
  | a :: _, b :: _ => Except.ok (computeImageDifference a b)
  | _, _ => Except.error ()

/-! ## Matrix orchestrator (`DataManager.run_tasks`)

`run_tasks` iterates `users × browsers × urls × zip(item_types,
click_paths)` and, per cell, runs a retry loop: attempt the worker; on
success append one record and break; on failure sleep 2 s, decrement the
retry counter (initially 5) and break with a warning when it drops below
one.  Worker success is external (browser, network), so the embedding is
parameterized by an oracle `ok c k` telling whether attempt number `k`
(0-based) at coordinate `c` completes, and by `dat c k`, the data that
attempt would return. -/

/-- One unit of work: the coordinate fields of the record dict appended
by `run_tasks` (`item_type` and `click_path` may be Python `None`). -/
structure Coord where
  user : String
  browser : String
  url : String
  itemType : Option String
  clickPath : Option String
  deriving Repr, DecidableEq, BEq

/-- One entry of `self.all_data`, minus the coordinate fields. -/
structure Record (δ : Type) where
  coord : Coord
  data : δ
  serverName : String
  deriving Repr, DecidableEq, BEq

/-- `'prod' if self.urls[0] == url else 'RC'` (evaluated inside the url
loop, where `urls` is nonempty). -/
def serverNameOf (urls : List String) (url : String) : String :=
  if urls.head? = some url then "prod" else "RC"

/-- Observable events of one cell's retry loop, with the `time.sleep`
argument in seconds and the `WARNING: Task incomplete.` print. -/
inductive Ev
  | attempt (k : Nat)
  | sleep (secs : Nat)
  | warn
  deriving Repr, DecidableEq, BEq

/-- The retry loop of one grid cell, `retry` being the current counter
value and `k` the 0-based index of the next attempt:

    while True:
        ... attempt k ...
        if dw.task_completed: append; break
        time.sleep(2)
        retry -= 1
        if retry < 1: warn; break

Returns the emitted events and the index of the successful attempt. -/
def cellRun (ok : Nat → Bool) : Nat → Nat → List Ev × Option Nat
  | 0, _ => ([], none)
  | r + 1, k =>
    if ok k then ([Ev.attempt k], some k)
    else if r < 1 then ([Ev.attempt k, Ev.sleep 2, Ev.warn], none)
    else
      let rest := cellRun ok r (k + 1)
      (Ev.attempt k :: Ev.sleep 2 :: rest.1, rest.2)

/-- Events of a cell's retry loop, starting from `retry = 5`. -/
def cellEvents (ok : Nat → Bool) : List Ev := (cellRun ok 5 0).1

/-- Index of a cell's successful attempt (`none` when abandoned). -/
def cellResult (ok : Nat → Bool) : Option Nat := (cellRun ok 5 0).2

/-- The coordinate grid in the exact order the four nested loops of
`run_tasks` enumerate it (`zip` pairs item types with click paths
positionally, truncating to the shorter list). -/
def gridList (users browsers urls : List String)
    (itemTypes clickPaths : List (Option String)) : List Coord :=
  users.flatMap fun u =>
    browsers.flatMap fun b =>
      urls.flatMap fun l =>
        (itemTypes.zip clickPaths).map fun p => ⟨u, b, l, p.1, p.2⟩

/-- `DataManager.run_tasks`: traverse the grid in loop order and append
one record per cell whose retry loop succeeds (`filterMap` over the loop
enumeration is exactly the nested loops' sequence of appends to
`self.all_data`). -/
def runTasks {δ : Type} (users browsers urls : List String)
    (itemTypes clickPaths : List (Option String))
    (ok : Coord → Nat → Bool) (dat : Coord → Nat → δ) : List (Record δ) :=
  (gridList users browsers urls itemTypes clickPaths).filterMap fun c =>
    (cellResult (fun k => ok c k)).map fun k =>
      ⟨c, dat c k, serverNameOf urls c.url⟩

/-! ## Task worker (`DataWorker.run_task`)

One attempt runs inside `try ... except (KeyboardInterrupt, SystemExit):
raise except Exception: swallow finally: try: self.driver.quit() except
AttributeError: pass`.  The collaborator behaviors (driver creation,
sign-in, capture, teardown) are external, so the embedding is
parameterized by their outcomes. -/

/-- Python exception classes relevant to `run_task`'s handlers. -/
inductive Exc
  | keyboardInterrupt
  | systemExit
  | attributeError
  | valueError (msg : String)
  | other (msg : String)
  deriving Repr, DecidableEq, BEq

/-- Exceptions re-raised by `except (KeyboardInterrupt, SystemExit)`. -/
def isInterrupt : Exc → Bool
  | Exc.keyboardInterrupt => true
  | Exc.systemExit => true
  | _ => false

/-- Outcomes of the external collaborators during one worker attempt. -/
structure WorkerEnv (δ : Type) where
  /-- `self.user`; sign-in runs only when it differs from `'Public'`. -/
  user : String
  /-- exception raised by `NewDriver(...)`, if any. -/
  newDriverFails : Option Exc
  /-- exception raised by `SignIn(...)` or the refresh, if any. -/
  signInFails : Option Exc
  /-- what `SignIn.signed_in()` would report: whether the logout link
  appeared, i.e. whether identity establishment confirmed success. -/
  signInConfirmed : Bool
  /-- result of `new_task.get_data()`. -/
  getData : Except Exc δ
  /-- exception raised by `self.driver.quit()` when a driver exists. -/
  quitFails : Option Exc

/-- What one call of `run_task` does: return a value (with the final
`task_completed` flag) or raise. -/
inductive WorkerOutcome (δ : Type)
  | ret (data : Option δ) (taskCompleted : Bool)
  | raised (e : Exc)
  deriving Repr, DecidableEq, BEq

/-- Truthiness of the `SignIn` instance bound to `signed_in` at line
1433: a plain Python object without `__bool__`/`__len__` is always
truthy, whatever `signed_in()` would have reported. -/
def pyObjectTruthy (_signInConfirmed : Bool) : Bool := true

/-- The `try` body of `run_task` (lines 1431-1445), returning the body's
result and whether `self.driver` was created (which decides whether the
teardown's `self.driver` attribute access succeeds). -/
def runTaskBody {δ : Type} (env : WorkerEnv δ) : Except Exc δ × Bool :=
  match env.newDriverFails with
  | some e => (Except.error e, false)
  | none =>
    if env.user != "Public" then
      match env.signInFails with
      | some e => (Except.error e, true)
      | none =>
        if !(pyObjectTruthy env.signInConfirmed) then
          (Except.error (Exc.valueError "Login stalled."), true)
        else (env.getData, true)
    else (env.getData, true)

/-- Result of one worker attempt: the outcome, and how many times the
`finally` block invoked `self.driver.quit()` (`Nat.succ 0` on every exit
path of the embedded control flow). -/
structure AttemptResult (δ : Type) where
  outcome : WorkerOutcome δ
  teardownRuns : Nat
  deriving Repr, DecidableEq, BEq

/-- `DataWorker.run_task`: body, then exception handlers, then the
`finally` teardown whose own exception is swallowed only when it is an
`AttributeError`; per Python semantics an exception escaping `finally`
replaces the in-flight outcome. -/
def runTask {δ : Type} (env : WorkerEnv δ) : AttemptResult δ :=
  let body := runTaskBody env
  let afterHandlers : WorkerOutcome δ :=
    match body.1 with
    | Except.ok d => WorkerOutcome.ret (some d) true
    | Except.error e =>
      if isInterrupt e then WorkerOutcome.raised e
      else WorkerOutcome.ret none false
  let quitExc : Option Exc :=
    if body.2 then env.quitFails else some Exc.attributeError
  match quitExc with
  | some e =>
    if e = Exc.attributeError then ⟨afterHandlers, 1⟩
    else ⟨WorkerOutcome.raised e, 1⟩
  | none => ⟨afterHandlers, 1⟩

/-! ## Cross-target comparison precondition (`URLComparison.__init__`) -/

/-- The production-side selection: `[d['data'] for d in all_data if
d['url'] == prod_url and d['user'] == user and d['browser'] == browser
and d['item_type'] == item_type and d['click_path'] == click_path]`. -/
def sideSelection {δ : Type} (browser user sideUrl : String)
    (itemType clickPath : Option String) (allData : List (Record δ)) :
    List δ :=
  (allData.filter fun d =>
    d.coord.url == sideUrl && d.coord.user == user
      && d.coord.browser == browser && d.coord.itemType == itemType
      && d.coord.clickPath == clickPath).map (fun d => d.data)

/-- `URLComparison.__init__`: build both selections, then
`assert len(self.prod_data) == len(self.rc_data)`; an `AssertionError`
(modelled as `Except.error ()`) escapes immediately on mismatch. -/
def urlComparisonInit {δ : Type} (browser user prodUrl rcUrl : String)
    (itemType clickPath : Option String) (allData : List (Record δ)) :
    Except Unit (List δ × List δ) :=
  let prodSel := sideSelection browser user prodUrl itemType clickPath allData
  let rcSel := sideSelection browser user rcUrl itemType clickPath allData
  if prodSel.length = rcSel.length then Except.ok (prodSel, rcSel)
  else Except.error ()

/-! ## Helper lemmas -/

theorem pySetEq_iff_mem {α : Type} [BEq α] [LawfulBEq α] (xs ys : List α) :
    pySetEq xs ys = true ↔ ∀ a, a ∈ xs ↔ a ∈ ys := by
  simp only [pySetEq, Bool.and_eq_true, List.all_eq_true, List.contains,
    List.elem_iff]
  constructor
  · rintro ⟨h1, h2⟩ a
    exact ⟨fun ha => h1 a ha, fun ha => h2 a ha⟩
  · intro h
    exact ⟨fun a ha => (h a).1 ha, fun a ha => (h a).2 ha⟩

theorem pySetEq_iff_toFinset {α : Type} [BEq α] [LawfulBEq α] [DecidableEq α]
    (xs ys : List α) : pySetEq xs ys = true ↔ xs.toFinset = ys.toFinset := by
  rw [pySetEq_iff_mem, Finset.ext_iff]
  simp [List.mem_toFinset]

theorem compareTitle_matched_iff (pl rl : List FacetPair) :
    compareTitle pl rl = TitleOutcome.matched ↔ pl.toFinset = rl.toFinset := by
  constructor
  · intro h
    by_contra hne
    have hb : ¬ (pySetEq pl rl = true) := fun hb =>
      hne ((pySetEq_iff_toFinset pl rl).mp hb)
    rw [compareTitle, if_neg hb] at h
    simp only [] at h
    split at h
    · exact TitleOutcome.noConfusion h
    · exact TitleOutcome.noConfusion h
  · intro hf
    rw [compareTitle, if_pos ((pySetEq_iff_toFinset pl rl).mpr hf)]

theorem compareTitles_eq_map (prodData rcData : StructData) :
    ∀ ts : List String,
      compareTitles prodData rcData ts =
        ts.map (fun t =>
          (t, compareTitle (getTitle prodData t) (getTitle rcData t))) := by
  intro ts
  induction ts with
  | nil => rfl
  | cons t0 ts ih => simp [compareTitles, ih]

theorem compareTitle_self (pl : List FacetPair) :
    compareTitle pl pl = TitleOutcome.matched :=
  (compareTitle_matched_iff pl pl).mpr rfl

theorem mem_insertLe {α : Type} (le : α → α → Bool) (x a : α) (l : List α) :
    a ∈ insertLe le x l ↔ a ∈ x :: l := by
  induction l with
  | nil => simp [insertLe]
  | cons y ys ih =>
    simp only [insertLe]
    split
    · rfl
    · simp only [List.mem_cons, ih]
      tauto

theorem mem_sortLe {α : Type} (le : α → α → Bool) (a : α) (l : List α) :
    a ∈ sortLe le l ↔ a ∈ l := by
  induction l with
  | nil => simp [sortLe]
  | cons x xs ih =>
    simp only [sortLe, mem_insertLe, List.mem_cons, ih]

/-! ## Claims about the structured-data comparator -/

/-- C3: in `CompareFacetNumbersBetweenURLS.compare_data`, a title present
on both sides is reported MATCH if and only if the set of its
`(label, count)` pairs is equal between the two sides, independent of
list ordering; and comparing identical data reports MATCH for every
title, with every title of the data so reported. -/
theorem facet_match_iff_pair_set_equal :
    (∀ (prodData rcData : StructData) (t : String)
        (pl rl : List FacetPair) (o : TitleOutcome),
        lookupTitle prodData t = some pl →
        lookupTitle rcData t = some rl →
        (t, o) ∈ compareData prodData rcData →
        (o = TitleOutcome.matched ↔ pl.toFinset = rl.toFinset))
    ∧ (∀ d : StructData,
        (∀ e ∈ compareData d d, e.2 = TitleOutcome.matched)
        ∧ ∀ t ∈ d.map Prod.fst,
            (t, TitleOutcome.matched) ∈ compareData d d) := by
  constructor
  · intro prodData rcData t pl rl o hpl hrl hmem
    rw [compareData, compareTitles_eq_map] at hmem
    rcases List.mem_map.mp hmem with ⟨t', _, heq⟩
    have ht : t' = t := congrArg Prod.fst heq
    have ho : compareTitle (getTitle prodData t') (getTitle rcData t') = o :=
      congrArg Prod.snd heq
    subst ht
    rw [← ho]
    have hgp : getTitle prodData t' = pl := by rw [getTitle, hpl]; rfl
    have hgr : getTitle rcData t' = rl := by rw [getTitle, hrl]; rfl
    rw [hgp, hgr]
    exact compareTitle_matched_iff pl rl
  · intro d
    constructor
    · intro e he
      rw [compareData, compareTitles_eq_map] at he
      rcases List.mem_map.mp he with ⟨t, _, heq⟩
      rw [← heq]
      exact compareTitle_self _
    · intro t ht
      rw [compareData, compareTitles_eq_map]
      apply List.mem_map.mpr
      refine ⟨t, ?_, ?_⟩
      · rw [mem_sortLe]
        exact List.mem_dedup.mpr (List.mem_append.mpr (Or.inl ht))
      · rw [compareTitle_self]

/-- Witness for C3 at concrete data: one title, identical on both sides,
reported MATCH. -/
theorem facet_match_iff_pair_set_equal_witness :
    (TitleOutcome.matched = TitleOutcome.matched ↔
      ([("released", "10")] : List FacetPair).toFinset =
        ([("released", "10")] : List FacetPair).toFinset)
    ∧ (∀ e ∈ compareData [("Status", [("released", "10")])]
        [("Status", [("released", "10")])], e.2 = TitleOutcome.matched)
    ∧ ("Status", TitleOutcome.matched) ∈
        compareData [("Status", [("released", "10")])]
          [("Status", [("released", "10")])] :=
  ⟨facet_match_iff_pair_set_equal.1
      [("Status", [("released", "10")])] [("Status", [("released", "10")])]
      "Status" [("released", "10")] [("released", "10")]
      TitleOutcome.matched (by decide) (by decide)
      (by
        rw [show compareData [("Status", [("released", "10")])]
            [("Status", [("released", "10")])]
            = [("Status", TitleOutcome.matched)] from rfl]
        exact List.mem_singleton_self _),
   (facet_match_iff_pair_set_equal.2 [("Status", [("released", "10")])]).1,
   (facet_match_iff_pair_set_equal.2
      [("Status", [("released", "10")])]).2 "Status" (by decide)⟩

/-- C4 counterexample: the positional count-vs-count pairing is performed
for a title whose two per-side lists have different lengths (3 vs 2) and
different label multisets (`{a, b, b}` vs `{a, b}`): the code's guard
compares the lengths of the two set-difference lists and the label sets
of the full lists, not per-side list lengths and label multisets. -/
theorem facet_positional_condition_counterexample :
    compareTitle [("a", "1"), ("b", "2"), ("b", "2")] [("a", "2"), ("b", "2")]
        = TitleOutcome.positional [(("a", "1"), ("a", "2"))]
      ∧ ([("a", "1"), ("b", "2"), ("b", "2")] : List FacetPair).length ≠
          ([("a", "2"), ("b", "2")] : List FacetPair).length
      ∧ (([("a", "1"), ("b", "2"), ("b", "2")] : List FacetPair).map Prod.fst
            : Multiset String) ≠
          (([("a", "2"), ("b", "2")] : List FacetPair).map Prod.fst
            : Multiset String) := by
  refine ⟨by decide, by decide, ?_⟩
  decide

/-- C4 (amended): when a common title's pair-sets are unequal, the
comparator pairs the two sorted set-difference lists positionally exactly
when those two difference lists are equal in length and the label *sets*
of the two full per-side lists coincide; in every other case it still
pairs (positionally, by sorted order) the difference entries whose label
occurs in both difference lists, and reports only the remaining entries
as unique to each side. -/
theorem facet_positional_branch_condition :
    ∀ pl rl : List FacetPair, pl.toFinset ≠ rl.toFinset →
      (compareTitle pl rl =
          TitleOutcome.positional
            ((sortedSetDiff pl rl).zip (sortedSetDiff rl pl)) ↔
        ((sortedSetDiff pl rl).length = (sortedSetDiff rl pl).length ∧
          (pl.map Prod.fst).toFinset = (rl.map Prod.fst).toFinset))
      ∧ (¬ ((sortedSetDiff pl rl).length = (sortedSetDiff rl pl).length ∧
            (pl.map Prod.fst).toFinset = (rl.map Prod.fst).toFinset) →
          compareTitle pl rl =
            TitleOutcome.fallback
              ((sortLe pairLe ((sortedSetDiff pl rl).filter
                  (fun x => ((sortedSetDiff rl pl).map Prod.fst).contains x.1))).zip
                (sortLe pairLe ((sortedSetDiff rl pl).filter
                  (fun x => ((sortedSetDiff pl rl).map Prod.fst).contains x.1))))
              ((sortedSetDiff pl rl).filter
                (fun x => !(((sortedSetDiff rl pl).map Prod.fst).contains x.1)))
              ((sortedSetDiff rl pl).filter
                (fun x => !(((sortedSetDiff pl rl).map Prod.fst).contains
                  x.1)))) := by
  intro pl rl hne
  have hb : ¬ (pySetEq pl rl = true) := fun hb =>
    hne ((pySetEq_iff_toFinset pl rl).mp hb)
  rw [compareTitle, if_neg hb]
  simp only []
  by_cases hc : ((sortedSetDiff pl rl).length == (sortedSetDiff rl pl).length
      && pySetEq (pl.map Prod.fst) (rl.map Prod.fst)) = true
  · rw [if_pos hc]
    rcases Bool.and_eq_true .. ▸ hc with ⟨hlen, hlab⟩
    refine ⟨⟨fun _ => ⟨by simpa using hlen,
      (pySetEq_iff_toFinset _ _).mp hlab⟩, fun _ => rfl⟩, fun hno => ?_⟩
    exact absurd ⟨by simpa using hlen,
      (pySetEq_iff_toFinset _ _).mp hlab⟩ hno
  · rw [if_neg hc]
    refine ⟨⟨fun h => TitleOutcome.noConfusion h, fun hcond => ?_⟩,
      fun _ => rfl⟩
    exact absurd (by
      rw [Bool.and_eq_true]
      exact ⟨by simpa using hcond.1,
        (pySetEq_iff_toFinset _ _).mpr hcond.2⟩) hc

/-- Witness for the amended C4 at concrete data: equal-length difference
lists with coinciding label sets trigger the positional pairing. -/
theorem facet_positional_branch_condition_witness :
    compareTitle [("a", "1")] [("a", "2")] =
      TitleOutcome.positional [(("a", "1"), ("a", "2"))] := by
  have h := (facet_positional_branch_condition
    [("a", "1")] [("a", "2")] (by decide)).1.mpr ⟨by decide, by decide⟩
  simpa using h

/-! ## Claims about the screenshot comparator -/

theorem imgSum_eq_zero_of_imgAny_eq_false {d : Image}
    (h : imgAny d = false) : imgSum d = 0 := by
  simp only [imgAny, List.any_eq_false, Bool.not_eq_true, bne_iff_ne, ne_eq,
    not_not] at h
  simp only [imgSum]
  apply List.sum_eq_zero
  intro x hx
  rcases List.mem_map.mp hx with ⟨row, hrow, rfl⟩
  apply List.sum_eq_zero
  intro y hy
  rcases List.mem_map.mp hy with ⟨px, hpx, rfl⟩
  apply List.sum_eq_zero
  intro v hv
  exact h row hrow px hpx v hv

theorem isSame_same_iff (d : Image) :
    (isSame d).same = true ↔ imgSum d ≤ 50000 := by
  by_cases h : imgAny d = true
  · by_cases hs : imgSum d > 50000
    · simp only [isSame]
      rw [if_pos h, if_pos hs]
      constructor
      · intro hx; exact absurd hx (by decide)
      · intro hx; omega
    · simp only [isSame]
      rw [if_pos h, if_neg hs]
      constructor
      · intro _; omega
      · intro _; rfl
  · have hb : imgAny d = false := Bool.eq_false_iff.mpr h
    have h0 : imgSum d = 0 := imgSum_eq_zero_of_imgAny_eq_false hb
    simp only [isSame]
    rw [if_neg h]
    constructor
    · intro _; omega
    · intro _; rfl

theorem equalized_of_eq_length {a b : Image} (h : a.length = b.length) :
    equalized a b = (a, b) := by
  simp [equalized, h]

/-- Full characterization of `computeImageDifference`, shared by the
screenshot claims below. -/
theorem computeImageDifference_spec :
    ∀ a b : Image,
      (computeImageDifference a b).metric =
        imgSum (cvSubtract (equalized a b).1 (equalized a b).2)
      ∧ ((computeImageDifference a b).diffFound = false ↔
          imgSum (cvSubtract (equalized a b).1 (equalized a b).2) ≤ 50000)
      ∧ ((computeImageDifference a b).diffFound = true →
          (computeImageDifference a b).artifact =
            some (hconcat3 (equalized a b).1
              (imgMap2 addWeighted02 (equalized a b).1
                (cvSubtract (equalized a b).1 (equalized a b).2))
              (equalized a b).2))
      ∧ ((computeImageDifference a b).diffFound = false →
          (computeImageDifference a b).artifact = none) := by
  intro a b
  by_cases h : (isSame (cvSubtract (equalized a b).1 (equalized a b).2)).same
    = true
  · have hd : computeImageDifference a b =
        ⟨false, none,
          (isSame (cvSubtract (equalized a b).1 (equalized a b).2)).metric⟩ := by
      simp only [computeImageDifference]
      rw [h]
      simp
    rw [hd]
    refine ⟨rfl, ?_, ?_, fun _ => rfl⟩
    · exact ⟨fun _ => (isSame_same_iff _).mp h, fun _ => rfl⟩
    · intro hx; exact Bool.noConfusion hx
  · have hb : (isSame (cvSubtract (equalized a b).1 (equalized a b).2)).same
      = false := Bool.eq_false_iff.mpr h
    have hd : computeImageDifference a b =
        ⟨true,
          some (hconcat3 (equalized a b).1
            (imgMap2 addWeighted02 (equalized a b).1
              (cvSubtract (equalized a b).1 (equalized a b).2))
            (equalized a b).2),
          (isSame (cvSubtract (equalized a b).1 (equalized a b).2)).metric⟩ := by
      simp only [computeImageDifference]
      rw [hb]
      simp
    rw [hd]
    refine ⟨rfl, ?_, fun _ => rfl, ?_⟩
    · constructor
      · intro hx; exact Bool.noConfusion hx
      · intro hle
        exact absurd ((isSame_same_iff _).mpr hle) (by simp [hb])
    · intro hx; exact Bool.noConfusion hx

/-- C5 (amended): the comparator computes the one-sided saturating
per-pixel difference `cv2.subtract(prod, rc)` (clipped at zero, not an
absolute difference) of the two shape-equalized images, declares MATCH
exactly when its sum is at most the fixed threshold 50000 (no pixel
differing yields sum 0), and on mismatch produces the horizontal triptych
`prod | addWeighted(prod, 0.2, difference, 1, 0) | rc` and reports the
sum as the divergence metric. -/
theorem screenshot_match_characterization :
    ∀ a b : Image,
      (computeImageDifference a b).metric =
        imgSum (cvSubtract (equalized a b).1 (equalized a b).2)
      ∧ ((computeImageDifference a b).diffFound = false ↔
          imgSum (cvSubtract (equalized a b).1 (equalized a b).2) ≤ 50000)
      ∧ ((computeImageDifference a b).diffFound = true →
          (computeImageDifference a b).artifact =
            some (hconcat3 (equalized a b).1
              (imgMap2 addWeighted02 (equalized a b).1
                (cvSubtract (equalized a b).1 (equalized a b).2))
              (equalized a b).2))
      ∧ ((computeImageDifference a b).diffFound = false →
          (computeImageDifference a b).artifact = none) :=
  fun a b => computeImageDifference_spec a b

/-- Witness for the amended C5: a concrete mismatching pair (one white
row of 70 pixels against a black one) produces the triptych artifact. -/
theorem screenshot_match_characterization_witness :
    (computeImageDifference
        [List.replicate 70 [255, 255, 255]] [List.replicate 70 [0, 0, 0]]).artifact =
      some (hconcat3
        (equalized [List.replicate 70 [255, 255, 255]]
          [List.replicate 70 [0, 0, 0]]).1
        (imgMap2 addWeighted02
          (equalized [List.replicate 70 [255, 255, 255]]
            [List.replicate 70 [0, 0, 0]]).1
          (cvSubtract
            (equalized [List.replicate 70 [255, 255, 255]]
              [List.replicate 70 [0, 0, 0]]).1
            (equalized [List.replicate 70 [255, 255, 255]]
              [List.replicate 70 [0, 0, 0]]).2))
        (equalized [List.replicate 70 [255, 255, 255]]
          [List.replicate 70 [0, 0, 0]]).2) :=
  (screenshot_match_characterization
    [List.replicate 70 [255, 255, 255]] [List.replicate 70 [0, 0, 0]]).2.2.1
    (by decide)

/-- C5 counterexample: the comparator does not compute an absolute
difference.  For a black row of 66 pixels compared against a white one,
every pixel differs and the summed absolute difference is 50490 (not
below the 50000 threshold), yet the code reports MATCH with metric 0,
because `cv2.subtract(black, white)` clips every negative difference
to zero. -/
theorem screenshot_absdiff_counterexample :
    (computeImageDifference
        [List.replicate 66 [0, 0, 0]] [List.replicate 66 [255, 255, 255]]
      : DiffResult) =
      ⟨false, none, 0⟩
    ∧ imgAny (specAbsDiff [List.replicate 66 [0, 0, 0]]
        [List.replicate 66 [255, 255, 255]]) = true
    ∧ imgSum (specAbsDiff [List.replicate 66 [0, 0, 0]]
        [List.replicate 66 [255, 255, 255]]) = 50490
    ∧ ¬ (50490 < 50000) := by
  refine ⟨by decide, by decide, by decide, by decide⟩

theorem zipWith_sub_sum_add_comm (a : List Nat) :
    ∀ b : List Nat,
      (List.zipWith (fun x y => x - y) a b).sum
        + (List.zipWith (fun x y => x - y) b a).sum
      = (List.zipWith (fun x y => max x y - min x y) a b).sum := by
  induction a with
  | nil => intro b; simp
  | cons x xs ih =>
    intro b
    cases b with
    | nil => simp
    | cons y ys =>
      simp only [List.zipWith_cons_cons, List.sum_cons]
      have := ih ys
      omega

theorem zipWith2_sub_sum_add_comm (a : List (List Nat)) :
    ∀ b : List (List Nat),
      ((List.zipWith (List.zipWith (fun x y => x - y)) a b).map
          (fun px => px.sum)).sum
        + ((List.zipWith (List.zipWith (fun x y => x - y)) b a).map
            (fun px => px.sum)).sum
      = ((List.zipWith (List.zipWith (fun x y => max x y - min x y)) a b).map
          (fun px => px.sum)).sum := by
  induction a with
  | nil => intro b; simp
  | cons x xs ih =>
    intro b
    cases b with
    | nil => simp
    | cons y ys =>
      simp only [List.zipWith_cons_cons, List.map_cons, List.sum_cons]
      have h1 := zipWith_sub_sum_add_comm x y
      have h2 := ih ys
      omega

theorem imgSum_cvSubtract_add_comm (a : Image) :
    ∀ b : Image,
      imgSum (cvSubtract a b) + imgSum (cvSubtract b a)
        = imgSum (specAbsDiff a b) := by
  induction a with
  | nil => intro b; simp [imgSum, cvSubtract, specAbsDiff, imgMap2]
  | cons x xs ih =>
    intro b
    cases b with
    | nil => simp [imgSum, cvSubtract, specAbsDiff, imgMap2]
    | cons y ys =>
      simp only [imgSum, cvSubtract, specAbsDiff, imgMap2,
        List.zipWith_cons_cons, List.map_cons, List.sum_cons] at ih ⊢
      have h1 := zipWith2_sub_sum_add_comm x y
      have h2 := ih ys
      omega

theorem zipWith_sub_self_sum (l : List Nat) :
    (List.zipWith (fun x y => x - y) l l).sum = 0 := by
  induction l with
  | nil => simp
  | cons x xs ih => simp [ih]

theorem zipWith2_sub_self_sum (l : List (List Nat)) :
    ((List.zipWith (List.zipWith (fun x y => x - y)) l l).map
      (fun px => px.sum)).sum = 0 := by
  induction l with
  | nil => simp
  | cons x xs ih =>
    simp only [List.zipWith_cons_cons, List.map_cons, List.sum_cons]
    rw [zipWith_sub_self_sum x, ih]

theorem imgSum_cvSubtract_self (a : Image) : imgSum (cvSubtract a a) = 0 := by
  induction a with
  | nil => simp [imgSum, cvSubtract, imgMap2]
  | cons x xs ih =>
    simp only [imgSum, cvSubtract, imgMap2, List.zipWith_cons_cons,
      List.map_cons, List.sum_cons] at ih ⊢
    rw [zipWith2_sub_self_sum x]
    omega

/-- C6 (amended): screenshot comparison is not symmetric in general — the
difference is one-sided.  What does hold for equal-height images: the two
one-sided metrics sum to the total per-pixel absolute difference, each
order declares MATCH exactly when its own one-sided sum is at most 50000
(so the orders agree iff the two sums lie on the same side of the
threshold), and comparing an image with itself is MATCH with metric 0. -/
theorem screenshot_symmetry_amended :
    ∀ a b : Image, a.length = b.length →
      imgSum (cvSubtract a b) + imgSum (cvSubtract b a)
        = imgSum (specAbsDiff a b)
      ∧ ((computeImageDifference a b).diffFound = false ↔
          imgSum (cvSubtract a b) ≤ 50000)
      ∧ ((computeImageDifference b a).diffFound = false ↔
          imgSum (cvSubtract b a) ≤ 50000)
      ∧ (computeImageDifference a a).diffFound = false
      ∧ (computeImageDifference a a).metric = 0 := by
  intro a b hlen
  have hab := equalized_of_eq_length hlen
  have hba := equalized_of_eq_length hlen.symm
  have haa := equalized_of_eq_length (rfl : a.length = a.length)
  have c1 := (computeImageDifference_spec a b).2.1
  have c2 := (computeImageDifference_spec b a).2.1
  have c3 := (computeImageDifference_spec a a).2.1
  have c4 := (computeImageDifference_spec a a).1
  rw [hab] at c1
  rw [hba] at c2
  rw [haa] at c3 c4
  refine ⟨imgSum_cvSubtract_add_comm a b, c1, c2, ?_, ?_⟩
  · exact c3.mpr (by rw [imgSum_cvSubtract_self a]; omega)
  · rw [c4, imgSum_cvSubtract_self a]

/-- Witness for the amended C6 at two concrete single-pixel images:
one-sided sums 3 and 7, absolute total 10, both orders MATCH. -/
theorem screenshot_symmetry_amended_witness :
    imgSum (cvSubtract [[[5, 0, 0]]] [[[2, 7, 0]]])
        + imgSum (cvSubtract [[[2, 7, 0]]] [[[5, 0, 0]]])
      = imgSum (specAbsDiff [[[5, 0, 0]]] [[[2, 7, 0]]])
    ∧ ((computeImageDifference [[[5, 0, 0]]] [[[2, 7, 0]]]).diffFound = false ↔
        imgSum (cvSubtract [[[5, 0, 0]]] [[[2, 7, 0]]]) ≤ 50000)
    ∧ ((computeImageDifference [[[2, 7, 0]]] [[[5, 0, 0]]]).diffFound = false ↔
        imgSum (cvSubtract [[[2, 7, 0]]] [[[5, 0, 0]]]) ≤ 50000)
    ∧ (computeImageDifference [[[5, 0, 0]]] [[[5, 0, 0]]]).diffFound = false
    ∧ (computeImageDifference [[[5, 0, 0]]] [[[5, 0, 0]]]).metric = 0 :=
  screenshot_symmetry_amended [[[5, 0, 0]]] [[[2, 7, 0]]] rfl

/-- C6 counterexample: a black and a white row of 70 pixels.  Comparing
(black, white) yields MATCH with metric 0; comparing (white, black)
yields MISMATCH with metric 53550: outcome and metric both depend on the
order of the arguments. -/
theorem screenshot_symmetry_counterexample :
    (computeImageDifference
        [List.replicate 70 [0, 0, 0]] [List.replicate 70 [255, 255, 255]]
        ).diffFound = false
    ∧ (computeImageDifference
        [List.replicate 70 [255, 255, 255]] [List.replicate 70 [0, 0, 0]]
        ).diffFound = true
    ∧ (computeImageDifference
        [List.replicate 70 [0, 0, 0]] [List.replicate 70 [255, 255, 255]]
        ).metric = 0
    ∧ (computeImageDifference
        [List.replicate 70 [255, 255, 255]] [List.replicate 70 [0, 0, 0]]
        ).metric = 53550 := by
  refine ⟨by decide, by decide, by decide, by decide⟩

/-! ## Claims about the matrix orchestrator -/

theorem cellRun_unfold_fail (ok : Nat → Bool) (r k : Nat)
    (hb : ok k = false) :
    cellRun ok (r + 2) k =
      (Ev.attempt k :: Ev.sleep 2 :: (cellRun ok (r + 1) (k + 1)).1,
        (cellRun ok (r + 1) (k + 1)).2) := by
  conv_lhs => rw [cellRun]
  rw [if_neg (by simp [hb]), if_neg (by omega)]

theorem cellRun_snd_isSome_iff (ok : Nat → Bool) :
    ∀ r k, ((cellRun ok (r + 1) k).2.isSome = true ↔
      ∃ j, j ≤ r ∧ ok (k + j) = true) := by
  intro r
  induction r with
  | zero =>
    intro k
    by_cases h : ok k = true
    · simp only [cellRun, if_pos h, Option.isSome_some, true_iff]
      exact ⟨0, Nat.le_refl 0, by simpa using h⟩
    · have hb : ok k = false := Bool.eq_false_iff.mpr h
      simp only [cellRun, hb, Bool.false_eq_true, if_false,
        Nat.lt_irrefl, if_pos (by omega : (0:Nat) < 1)]
      constructor
      · intro hx; exact absurd hx (by simp)
      · rintro ⟨j, hj, hok⟩
        interval_cases j
        rw [Nat.add_zero] at hok
        rw [hok] at hb
        exact absurd hb (by simp)
  | succ r ih =>
    intro k
    by_cases h : ok k = true
    · simp only [cellRun, if_pos h, Option.isSome_some, true_iff]
      exact ⟨0, by omega, by simpa using h⟩
    · have hb : ok k = false := Bool.eq_false_iff.mpr h
      rw [show r + 1 + 1 = r + 2 by omega, cellRun_unfold_fail ok r k hb]
      simp only [Prod.snd]
      rw [ih (k + 1)]
      constructor
      · rintro ⟨j, hj, hok⟩
        exact ⟨j + 1, by omega,
          by rw [show k + (j + 1) = k + 1 + j by omega]; exact hok⟩
      · rintro ⟨j, hj, hok⟩
        cases j with
        | zero =>
          rw [Nat.add_zero] at hok
          rw [hok] at hb
          exact absurd hb (by simp)
        | succ j' =>
          exact ⟨j', by omega,
            by rw [show k + 1 + j' = k + (j' + 1) by omega]; exact hok⟩

theorem cellResult_isSome_iff (ok : Nat → Bool) :
    (cellResult ok).isSome = true ↔ ∃ k, k < 5 ∧ ok k = true := by
  have h := cellRun_snd_isSome_iff ok 4 0
  simp only [Nat.zero_add] at h
  rw [show (4:Nat) + 1 = 5 by omega] at h
  rw [cellResult, h]
  constructor
  · rintro ⟨j, hj, hok⟩; exact ⟨j, by omega, hok⟩
  · rintro ⟨j, hj, hok⟩; exact ⟨j, by omega, hok⟩

theorem runTasks_map_coord {δ : Type} (users browsers urls : List String)
    (itemTypes clickPaths : List (Option String))
    (ok : Coord → Nat → Bool) (dat : Coord → Nat → δ) :
    (runTasks users browsers urls itemTypes clickPaths ok dat).map
        (fun r => r.coord)
      = (gridList users browsers urls itemTypes clickPaths).filter
          (fun c => (cellResult (fun k => ok c k)).isSome) := by
  rw [runTasks]
  induction gridList users browsers urls itemTypes clickPaths with
  | nil => rfl
  | cons c l ih =>
    cases h : cellResult (fun k => ok c k) with
    | none =>
      simp only [List.filterMap_cons, List.filter_cons, h, Option.map_none',
        Option.isSome_none, Bool.false_eq_true, if_false]
      exact ih
    | some k =>
      simp only [List.filterMap_cons, List.filter_cons, h, Option.map_some',
        Option.isSome_some, if_pos rfl, List.map_cons]
      exact congrArg (List.cons c) ih

theorem mem_gridList {users browsers urls : List String}
    {itemTypes clickPaths : List (Option String)} {c : Coord} :
    c ∈ gridList users browsers urls itemTypes clickPaths ↔
      c.user ∈ users ∧ c.browser ∈ browsers ∧ c.url ∈ urls ∧
        (c.itemType, c.clickPath) ∈ itemTypes.zip clickPaths := by
  simp only [gridList, List.mem_flatMap, List.mem_map]
  constructor
  · rintro ⟨u, hu, b, hb, l, hl, p, hp, rfl⟩
    exact ⟨hu, hb, hl, by cases p; exact hp⟩
  · rintro ⟨hu, hb, hl, hp⟩
    exact ⟨c.user, hu, c.browser, hb, c.url, hl,
      (c.itemType, c.clickPath), hp, rfl⟩

theorem gridList_nodup {users browsers urls : List String}
    {itemTypes clickPaths : List (Option String)}
    (hu : users.Nodup) (hb : browsers.Nodup) (hl : urls.Nodup)
    (hp : (itemTypes.zip clickPaths).Nodup) :
    (gridList users browsers urls itemTypes clickPaths).Nodup := by
  rw [gridList]
  rw [List.nodup_flatMap]
  refine ⟨?_, ?_⟩
  · intro u _
    rw [List.nodup_flatMap]
    refine ⟨?_, ?_⟩
    · intro b _
      rw [List.nodup_flatMap]
      refine ⟨?_, ?_⟩
      · intro l _
        refine List.Nodup.map ?_ hp
        intro p q hpq
        have h1 := congrArg Coord.itemType hpq
        have h2 := congrArg Coord.clickPath hpq
        cases p; cases q
        simp only at h1 h2
        simp [h1, h2]
      · refine hl.imp ?_
        intro l1 l2 hne
        rw [Function.onFun]
        rw [List.disjoint_left]
        intro a ha1 ha2
        rcases List.mem_map.mp ha1 with ⟨p, _, rfl⟩
        rcases List.mem_map.mp ha2 with ⟨q, _, hq⟩
        exact hne (congrArg Coord.url hq).symm
    · refine hb.imp ?_
      intro b1 b2 hne
      rw [Function.onFun]
      rw [List.disjoint_left]
      intro a ha1 ha2
      rcases List.mem_flatMap.mp ha1 with ⟨l1, _, hm1⟩
      rcases List.mem_flatMap.mp ha2 with ⟨l2, _, hm2⟩
      rcases List.mem_map.mp hm1 with ⟨p, _, rfl⟩
      rcases List.mem_map.mp hm2 with ⟨q, _, hq⟩
      exact hne (congrArg Coord.browser hq).symm
  · refine hu.imp ?_
    intro u1 u2 hne
    rw [Function.onFun]
    rw [List.disjoint_left]
    intro a ha1 ha2
    rcases List.mem_flatMap.mp ha1 with ⟨b1, _, hm1⟩
    rcases List.mem_flatMap.mp ha2 with ⟨b2, _, hm2⟩
    rcases List.mem_flatMap.mp hm1 with ⟨l1, _, hn1⟩
    rcases List.mem_flatMap.mp hm2 with ⟨l2, _, hn2⟩
    rcases List.mem_map.mp hn1 with ⟨p, _, rfl⟩
    rcases List.mem_map.mp hn2 with ⟨q, _, hq⟩
    exact hne (congrArg Coord.user hq).symm

/-- C1: the coordinates of the records accumulated by
`DataManager.run_tasks` are a subset of the grid
`users × browsers × urls × zip(item_types, click_paths)`; they are
exactly the grid (in enumeration order) when every coordinate succeeds
within the 5-attempt retry budget; and, for duplicate-free axes, at most
one record is produced per coordinate. -/
theorem run_tasks_grid_coverage :
    ∀ (δ : Type) (users browsers urls : List String)
      (itemTypes clickPaths : List (Option String))
      (ok : Coord → Nat → Bool) (dat : Coord → Nat → δ),
      (∀ r ∈ runTasks users browsers urls itemTypes clickPaths ok dat,
        r.coord ∈ gridList users browsers urls itemTypes clickPaths)
      ∧ ((∀ c ∈ gridList users browsers urls itemTypes clickPaths,
            ∃ k, k < 5 ∧ ok c k = true) →
          (runTasks users browsers urls itemTypes clickPaths ok dat).map
              (fun r => r.coord)
            = gridList users browsers urls itemTypes clickPaths)
      ∧ (users.Nodup → browsers.Nodup → urls.Nodup →
          (itemTypes.zip clickPaths).Nodup →
          ((runTasks users browsers urls itemTypes clickPaths ok dat).map
            (fun r => r.coord)).Nodup) := by
  intro δ users browsers urls itemTypes clickPaths ok dat
  refine ⟨?_, ?_, ?_⟩
  · intro r hr
    have : r.coord ∈ (runTasks users browsers urls itemTypes clickPaths
        ok dat).map (fun r => r.coord) := List.mem_map_of_mem _ hr
    rw [runTasks_map_coord] at this
    exact List.mem_of_mem_filter this
  · intro hall
    rw [runTasks_map_coord]
    apply List.filter_eq_self.mpr
    intro c hc
    exact (cellResult_isSome_iff (fun k => ok c k)).mpr (hall c hc)
  · intro hu hb hl hp
    rw [runTasks_map_coord]
    exact (gridList_nodup hu hb hl hp).filter _

/-- Witness for C1 on a concrete 1×1×2×1 grid in which the coordinate at
the second url fails its first two attempts and then succeeds. -/
theorem run_tasks_grid_coverage_witness :
    (∀ r ∈ runTasks ["u@x"] ["Chrome"] ["prod.org", "rc.org"] [none] [none]
        (fun c k => c.url == "prod.org" || decide (k ≥ 2)) (fun _ k => k),
      r.coord ∈ gridList ["u@x"] ["Chrome"] ["prod.org", "rc.org"]
        [none] [none])
    ∧ (runTasks ["u@x"] ["Chrome"] ["prod.org", "rc.org"] [none] [none]
        (fun c k => c.url == "prod.org" || decide (k ≥ 2)) (fun _ k => k)).map
          (fun r => r.coord)
        = gridList ["u@x"] ["Chrome"] ["prod.org", "rc.org"] [none] [none]
    ∧ ((runTasks ["u@x"] ["Chrome"] ["prod.org", "rc.org"] [none] [none]
        (fun c k => c.url == "prod.org" || decide (k ≥ 2)) (fun _ k => k)).map
          (fun r => r.coord)).Nodup := by
  have h := run_tasks_grid_coverage Nat ["u@x"] ["Chrome"]
    ["prod.org", "rc.org"] [none] [none]
    (fun c k => c.url == "prod.org" || decide (k ≥ 2)) (fun _ k => k)
  refine ⟨h.1, h.2.1 ?_, h.2.2 (by decide) (by decide) (by decide) (by decide)⟩
  intro c _
  exact ⟨2, by omega, by simp⟩

/-- C2: a coordinate all of whose attempts fail is attempted exactly 5
times (the hard-coded retry bound), with a 2-second sleep between (and
after) attempts, a single `WARNING: Task incomplete.` emission, and no
record for it in the accumulated result set. -/
theorem retry_exhaustion_behaviour :
    ∀ (δ : Type) (users browsers urls : List String)
      (itemTypes clickPaths : List (Option String))
      (ok : Coord → Nat → Bool) (dat : Coord → Nat → δ) (c : Coord),
      (∀ k, k < 5 → ok c k = false) →
      cellEvents (fun k => ok c k) =
        [Ev.attempt 0, Ev.sleep 2, Ev.attempt 1, Ev.sleep 2, Ev.attempt 2,
          Ev.sleep 2, Ev.attempt 3, Ev.sleep 2, Ev.attempt 4, Ev.sleep 2,
          Ev.warn]
      ∧ (cellEvents (fun k => ok c k)).count Ev.warn = 1
      ∧ cellResult (fun k => ok c k) = none
      ∧ c ∉ (runTasks users browsers urls itemTypes clickPaths ok dat).map
          (fun r => r.coord) := by
  intro δ users browsers urls itemTypes clickPaths ok dat c h
  have h0 := h 0 (by omega)
  have h1 := h 1 (by omega)
  have h2 := h 2 (by omega)
  have h3 := h 3 (by omega)
  have h4 := h 4 (by omega)
  have hev : cellEvents (fun k => ok c k) =
      [Ev.attempt 0, Ev.sleep 2, Ev.attempt 1, Ev.sleep 2, Ev.attempt 2,
        Ev.sleep 2, Ev.attempt 3, Ev.sleep 2, Ev.attempt 4, Ev.sleep 2,
        Ev.warn] := by
    simp [cellEvents, cellRun, h0, h1, h2, h3, h4]
  have hres : cellResult (fun k => ok c k) = none := by
    simp [cellResult, cellRun, h0, h1, h2, h3, h4]
  refine ⟨hev, by rw [hev]; rfl, hres, ?_⟩
  intro hmem
  rw [runTasks_map_coord] at hmem
  have := List.of_mem_filter hmem
  rw [hres] at this
  exact absurd this (by simp)

/-- Witness for C2: a concrete always-failing coordinate in a 1×1×1×1
grid is retried 5 times, warned about once, and absent from the results. -/
theorem retry_exhaustion_behaviour_witness :
    cellEvents (fun k => (fun (_ : Coord) (_ : Nat) => false)
        (⟨"u@x", "Chrome", "prod.org", none, none⟩ : Coord) k) =
      [Ev.attempt 0, Ev.sleep 2, Ev.attempt 1, Ev.sleep 2, Ev.attempt 2,
        Ev.sleep 2, Ev.attempt 3, Ev.sleep 2, Ev.attempt 4, Ev.sleep 2,
        Ev.warn]
    ∧ (cellEvents (fun k => (fun (_ : Coord) (_ : Nat) => false)
        (⟨"u@x", "Chrome", "prod.org", none, none⟩ : Coord) k)).count
          Ev.warn = 1
    ∧ cellResult (fun k => (fun (_ : Coord) (_ : Nat) => false)
        (⟨"u@x", "Chrome", "prod.org", none, none⟩ : Coord) k) = none
    ∧ (⟨"u@x", "Chrome", "prod.org", none, none⟩ : Coord) ∉
        (runTasks ["u@x"] ["Chrome"] ["prod.org"] [none] [none]
          (fun _ _ => false) (fun _ k => k)).map (fun r => r.coord) :=
  retry_exhaustion_behaviour Nat ["u@x"] ["Chrome"] ["prod.org"]
    [none] [none] (fun _ _ => false) (fun _ k => k)
    ⟨"u@x", "Chrome", "prod.org", none, none⟩ (fun _ _ => rfl)

/-! ## Claims about the task worker -/

/-- C8 evaluation at the failing input: for a non-Public user whose
sign-in completes without raising but never confirms
(`signed_in()` would report `false`), the attempt does NOT fail with
`Login stalled.`; it proceeds to data capture and completes.  The guard
`if not signed_in:` at line 1436 tests the truthiness of the `SignIn`
object — always truthy — so the `ValueError('Login stalled.')` is dead
code.  The second conjunct shows sign-in is nevertheless performed: a
raising sign-in fails the attempt. -/
theorem login_stall_check_is_dead_code :
    runTask (δ := Nat)
        ⟨"someone@example.org", none, none, false, Except.ok 42, none⟩ =
      ⟨WorkerOutcome.ret (some 42) true, 1⟩
    ∧ runTask (δ := Nat)
        ⟨"someone@example.org", none, some (Exc.other "TimeoutException"),
          false, Except.ok 42, none⟩ =
      ⟨WorkerOutcome.ret none false, 1⟩ := by
  exact ⟨rfl, rfl⟩

/-- C9 counterexample: a teardown exception other than `AttributeError`
is not swallowed.  Here the attempt itself succeeds (capture returns 7)
but `driver.quit()` raises a `WebDriverException`, and `run_task` raises
it, masking the successful primary outcome. -/
theorem teardown_escalation_counterexample :
    (runTask (δ := Nat)
        ⟨"Public", none, none, true, Except.ok 7,
          some (Exc.other "WebDriverException")⟩).outcome =
      WorkerOutcome.raised (Exc.other "WebDriverException")
    ∧ (runTaskBody (δ := Nat)
        ⟨"Public", none, none, true, Except.ok 7,
          some (Exc.other "WebDriverException")⟩).1 = Except.ok 7 := by
  exact ⟨rfl, rfl⟩

/-- C9 (amended): the teardown runs exactly once on every exit path of an
attempt; an `AttributeError` raised by it (in particular the attribute
access when no driver was created) is swallowed and leaves the attempt's
outcome untouched; any other teardown exception propagates, replacing the
attempt's primary outcome. -/
theorem teardown_once_and_selective_swallow :
    ∀ (δ : Type) (env : WorkerEnv δ),
      (runTask env).teardownRuns = 1
      ∧ ((runTaskBody env).2 = false ∨ env.quitFails = none ∨
          env.quitFails = some Exc.attributeError →
          (runTask env).outcome =
            (runTask ⟨env.user, env.newDriverFails, env.signInFails,
              env.signInConfirmed, env.getData, none⟩).outcome)
      ∧ (∀ e, (runTaskBody env).2 = true → env.quitFails = some e →
          e ≠ Exc.attributeError →
          (runTask env).outcome = WorkerOutcome.raised e) := by
  intro δ env
  have hbody : runTaskBody (δ := δ) ⟨env.user, env.newDriverFails,
      env.signInFails, env.signInConfirmed, env.getData, none⟩
      = runTaskBody env := by
    cases env
    rfl
  refine ⟨?_, ?_, ?_⟩
  · simp only [runTask]
    split
    · split
      · rfl
      · rfl
    · rfl
  · intro hcase
    simp only [runTask, hbody]
    rcases hcase with hdrv | hnone | hattr
    · simp [hdrv]
    · rw [hnone]
    · rw [hattr]
      cases hdrv : (runTaskBody env).2 <;> simp
  · intro e hdrv hq he
    simp only [runTask, hdrv, hq, if_true]
    rw [if_neg he]

/-- Witness for the amended C9: concrete environments exercising the
swallowed-`AttributeError` path (no driver created) and the propagation
path (teardown raises a `WebDriverException` after a failed capture). -/
theorem teardown_once_and_selective_swallow_witness :
    (runTask (δ := Nat)
        ⟨"Public", some (Exc.other "SessionNotCreated"), none, true,
          Except.ok 0, none⟩).teardownRuns = 1
    ∧ (runTask (δ := Nat)
        ⟨"Public", some (Exc.other "SessionNotCreated"), none, true,
          Except.ok 0, none⟩).outcome =
        (runTask (δ := Nat)
          ⟨"Public", some (Exc.other "SessionNotCreated"), none, true,
            Except.ok 0, none⟩).outcome
    ∧ (runTask (δ := Nat)
        ⟨"Public", none, none, true, Except.error (Exc.other "NoSuchElement"),
          some (Exc.other "WebDriverException")⟩).outcome =
        WorkerOutcome.raised (Exc.other "WebDriverException") :=
  ⟨(teardown_once_and_selective_swallow Nat
      ⟨"Public", some (Exc.other "SessionNotCreated"), none, true,
        Except.ok 0, none⟩).1,
   (teardown_once_and_selective_swallow Nat
      ⟨"Public", some (Exc.other "SessionNotCreated"), none, true,
        Except.ok 0, none⟩).2.1 (Or.inl rfl),
   (teardown_once_and_selective_swallow Nat
      ⟨"Public", none, none, true, Except.error (Exc.other "NoSuchElement"),
        some (Exc.other "WebDriverException")⟩).2.2
      (Exc.other "WebDriverException") rfl rfl (by decide)⟩

/-! ## Claims about the cross-target comparison precondition -/

/-- C7: constructing a `URLComparison` raises (an `AssertionError`,
modelled as `Except.error ()`) exactly when the records selected for the
production url and for the RC url under the fixed
`(browser, user, item_type, click_path)` differ in cardinality; on
success the comparison object holds exactly the two full selections —
a mismatch is never silently skipped or truncated. -/
theorem url_comparison_cardinality_precondition :
    ∀ (δ : Type) (browser user prodUrl rcUrl : String)
      (itemType clickPath : Option String) (allData : List (Record δ)),
      (urlComparisonInit browser user prodUrl rcUrl itemType clickPath
          allData = Except.error () ↔
        (sideSelection browser user prodUrl itemType clickPath
            allData).length ≠
          (sideSelection browser user rcUrl itemType clickPath
            allData).length)
      ∧ (∀ uc, urlComparisonInit browser user prodUrl rcUrl itemType
          clickPath allData = Except.ok uc →
          uc = (sideSelection browser user prodUrl itemType clickPath allData,
            sideSelection browser user rcUrl itemType clickPath allData)) := by
  intro δ browser user prodUrl rcUrl itemType clickPath allData
  rw [urlComparisonInit]
  by_cases h : (sideSelection browser user prodUrl itemType clickPath
      allData).length = (sideSelection browser user rcUrl itemType clickPath
      allData).length
  · rw [if_pos h]
    refine ⟨⟨fun hx => absurd hx (by simp), fun hx => absurd h hx⟩, ?_⟩
    intro uc huc
    cases huc
    rfl
  · rw [if_neg h]
    exact ⟨⟨fun _ => h, fun _ => rfl⟩, fun uc huc => Except.noConfusion huc⟩

/-- Witness for C7: a result set with one production record and no RC
record fails the precondition; a balanced one succeeds with the two
selections. -/
theorem url_comparison_cardinality_precondition_witness :
    urlComparisonInit (δ := Nat) "Chrome" "Public" "prod.org" "rc.org"
        none none [⟨⟨"Public", "Chrome", "prod.org", none, none⟩, 3, "prod"⟩]
      = Except.error ()
    ∧ ((⟨[3], [5]⟩ : List Nat × List Nat) =
        (sideSelection "Chrome" "Public" "prod.org" none none
            [⟨⟨"Public", "Chrome", "prod.org", none, none⟩, 3, "prod"⟩,
              ⟨⟨"Public", "Chrome", "rc.org", none, none⟩, 5, "RC"⟩],
          sideSelection "Chrome" "Public" "rc.org" none none
            [⟨⟨"Public", "Chrome", "prod.org", none, none⟩, 3, "prod"⟩,
              ⟨⟨"Public", "Chrome", "rc.org", none, none⟩, 5, "RC"⟩])) :=
  ⟨(url_comparison_cardinality_precondition Nat "Chrome" "Public"
      "prod.org" "rc.org" none none
      [⟨⟨"Public", "Chrome", "prod.org", none, none⟩, 3, "prod"⟩]).1.mpr
      (by decide),
   (url_comparison_cardinality_precondition Nat "Chrome" "Public"
      "prod.org" "rc.org" none none
      [⟨⟨"Public", "Chrome", "prod.org", none, none⟩, 3, "prod"⟩,
        ⟨⟨"Public", "Chrome", "rc.org", none, none⟩, 5, "RC"⟩]).2
      ⟨[3], [5]⟩ rfl⟩

/-! ## Only the first matching record per side is consumed -/

/-- C10: both cross-target comparators read only index 0 of the filtered
per-side record lists: their results are invariant under replacing
everything after the first record of either side, so any further matching
records are silently ignored. -/
theorem comparators_use_first_record_only :
    ∀ (p r : StructData) (ps ps' rs rs' : List StructData)
      (a b : Image) (as as' bs bs' : List Image),
      compareFacetRun (p :: ps) (r :: rs) =
        compareFacetRun (p :: ps') (r :: rs')
      ∧ imageRun (a :: as) (b :: bs) = imageRun (a :: as') (b :: bs') := by
  intro p r ps ps' rs rs' a b as as' bs bs'
  exact ⟨rfl, rfl⟩

end QANCode
